import Mathlib

/-!
Shallow embedding of the VAT-590 valve driver (TUM-E21-ThinFilms/VAT-590).

Python strings are modelled as `List Char`, byte strings as `List Nat`
(one entry per byte).  The files embedded are `vat_590/protocol.py`
(class `VAT590Protocol`), `vat_590/driver.py` (the setpoint guards of
`VAT590Driver`) and `vat_590/constants.py` (the `ERROR_INDEX` table).
Fallible Python code is modelled with `Except`; the transport collaborator
is a parameter recording the outcome of each primitive I/O call.
-/

namespace VAT590

/-- Characters treated as separators by Python `str.split(None)`:
space, tab, newline, carriage return, vertical tab, form feed. -/
def pyIsSpace (c : Char) : Bool :=
  c = ' ' || c = '\t' || c = '\n' || c = '\r' || c = '\x0b' || c = '\x0c'

/-- Split a character list at every separator, keeping (possibly empty)
segments, seeded with one empty segment. -/
def splitSegs (p : Char → Bool) (s : List Char) : List (List Char) :=
  s.foldr
    (fun c acc =>
      if p c then [] :: acc
      else
        match acc with
        | [] => [[c]]
        | t :: ts => (c :: t) :: ts)
    [[]]

/-- Python `s.split(None)`: split on whitespace runs, dropping empty tokens. -/
def pySplit (s : List Char) : List (List Char) :=
  (splitSegs pyIsSpace s).filter (fun t => t ≠ [])

/-- Python `s.startswith(pat)` on character lists. -/
def startsWith : List Char → List Char → Bool
  | _, [] => true
  | [], _ :: _ => false
  | c :: s, p :: ps => c = p && startsWith s ps

/-- Character list of a Lean string literal (used for concrete inputs). -/
def chars (s : String) : List Char := s.data

/-- ASCII bytes of a Lean string literal (used for concrete inputs). -/
def strBytes (s : String) : List Nat := s.data.map Char.toNat

/-- True when every character is in the 7-bit ASCII range. -/
def allAsciiChars (s : List Char) : Bool := s.all (fun c => c.toNat < 128)

/-- True when every byte is in the 7-bit ASCII range. -/
def allAsciiBytes (bs : List Nat) : Bool := bs.all (fun b => b < 128)

/-- Exceptions that the embedded code can raise.  `communicationError`,
`errorResponse` come from `e21_util.error`; `serialTimeout` is
`SerialTimeoutException`; `transportFault` stands for any other exception
raised by the raw transport; `valueError`, `indexError` and the unicode
errors are the Python built-ins. -/
inductive Exc where
  | communicationError (msg : List Char)
  | errorResponse (payload : List Char)
  | valueError (msg : List Char)
  | indexError
  | unicodeEncodeError
  | unicodeDecodeError
  | serialTimeout
  | transportFault (msg : List Char)
  deriving DecidableEq, Repr

/-- Predicate picking out `CommunicationError` among the exceptions. -/
def Exc.isCommError : Exc → Bool
  | .communicationError _ => true
  | _ => false

/-- Python `s.encode('ascii')`: the code points as bytes, or
`UnicodeEncodeError` when some character is outside ASCII. -/
def encodeAscii (s : List Char) : Except Exc (List Nat) :=
  if allAsciiChars s then .ok (s.map Char.toNat) else .error .unicodeEncodeError

/-- Python `b.decode('ascii')`: the bytes as characters, or
`UnicodeDecodeError` when some byte is outside ASCII. -/
def decodeAscii (bs : List Nat) : Except Exc (List Char) :=
  if allAsciiBytes bs then .ok (bs.map Char.ofNat) else .error .unicodeDecodeError

/-- Concatenation of a list of strings, Python `''.join`. -/
def joinAll (ls : List (List Char)) : List Char := ls.foldr (fun a b => a ++ b) []

/-- Embeds `VAT590Protocol.create_message` (protocol.py lines 31-36):
`''.join([header] + list(data) + ["\r\n"]).encode('ascii')`. -/
def create_message (header : List Char) (data : List (List Char)) : Except Exc (List Nat) :=
  encodeAscii (joinAll (header :: (data ++ [['\r', '\n']])))

/-- Message text of the header-mismatch `ValueError` raised at
protocol.py line 45; note it quotes `header[0]`, a single character. -/
def mismatchMsg (response : List Char) (h0 : Char) : List Char :=
  chars ("Response header mismatch: received \"") ++ response ++
    chars ("\" expected: \"") ++ [h0] ++ chars ("\"")

/-- Embeds `VAT590Protocol.parse_response` (protocol.py lines 38-48).
The response bytes are decoded as ASCII; a response starting with `E:`
raises `ErrorResponse(response)`; otherwise the code compares only
`header[0]` (`response.startswith(header[0])`), then drops `len(header)`
characters and splits the rest on whitespace. -/
def parse_response (responseB : List Nat) (header : List Char) :
    Except Exc (List (List Char)) :=
  match decodeAscii responseB with
  | .error e => .error e
  | .ok response =>
    if startsWith response ['E', ':'] then
      .error (.errorResponse response)
    else
      match header with
      | [] => .error .indexError
      | h0 :: _ =>
        if startsWith response [h0] then
          .ok (pySplit (response.drop header.length))
        else
          .error (.valueError (mismatchMsg response h0))

/-- Observable events of one exchange on the serial channel. -/
inductive Ev where
  | acquire
  | release
  | send (bytes : List Nat)
  | readUntil
  | readBytes (n : Nat)
  deriving DecidableEq, Repr

/-- Model of the transport collaborator: the outcome of `write`, of
`read_until("\r\n")`, and of the i-th `read_bytes(25)` call.  An
`Except.error` outcome means the primitive raised that exception. -/
structure Transport where
  writeResult : Except Exc Unit
  readUntilResult : Except Exc (List Nat)
  chunks : Nat → Except Exc (List Nat)

/-- Embeds `VAT590Protocol.send_message` (protocol.py lines 59-64): a
bare `except:` turns any transport exception into
`CommunicationError("Could not send data")`.  Returns the events
emitted and the outcome. -/
def send_message (t : Transport) (raw : List Nat) : List Ev × Except Exc Unit :=
  ([.send raw],
    match t.writeResult with
    | .ok _ => .ok ()
    | .error _ => .error (.communicationError (chars ("Could not send data"))))

/-- Embeds `VAT590Protocol.read_response` (protocol.py lines 50-57):
`read_until("\r\n")[0:-2]`, with a bare `except:` turning any failure
into `CommunicationError("Could not read response")`. -/
def read_response (t : Transport) : List Ev × Except Exc (List Nat) :=
  ([.readUntil],
    match t.readUntilResult with
    | .ok bs => .ok (bs.take (bs.length - 2))
    | .error _ => .error (.communicationError (chars ("Could not read response"))))

/-- Body of `VAT590Protocol.query` (protocol.py lines 66-72), the part
running inside `with self._transport`. -/
def queryBody (t : Transport) (header : List Char) (data : List (List Char)) :
    List Ev × Except Exc (List (List Char)) :=
  match create_message header data with
  | .error e => ([], .error e)
  | .ok msg =>
    match send_message t msg with
    | (ev1, .error e) => (ev1, .error e)
    | (ev1, .ok _) =>
      match read_response t with
      | (ev2, .error e) => (ev1 ++ ev2, .error e)
      | (ev2, .ok resp) => (ev1 ++ ev2, parse_response resp header)

/-- Embeds `VAT590Protocol.query`: the `with` statement acquires before
the body and releases on every exit path, normal or exceptional. -/
def query (t : Transport) (header : List Char) (data : List (List Char)) :
    List Ev × Except Exc (List (List Char)) :=
  (.acquire :: (queryBody t header data).1 ++ [.release], (queryBody t header data).2)

/-- Body of `VAT590Protocol.write` (protocol.py lines 74-81).  The raw
response is never parsed; when it is non-empty the anomaly is logged
(`Bool` result `true`) and the call still succeeds. -/
def writeBody (t : Transport) (header : List Char) (data : List (List Char)) :
    List Ev × Except Exc Bool :=
  match create_message header data with
  | .error e => ([], .error e)
  | .ok msg =>
    match send_message t msg with
    | (ev1, .error e) => (ev1, .error e)
    | (ev1, .ok _) =>
      match read_response t with
      | (ev2, .error e) => (ev1 ++ ev2, .error e)
      | (ev2, .ok resp) => (ev1 ++ ev2, .ok (decide (resp.length > 0)))

/-- Embeds `VAT590Protocol.write`, with the same `with`-scoping as
`query`. -/
def write (t : Transport) (header : List Char) (data : List (List Char)) :
    List Ev × Except Exc Bool :=
  (.acquire :: (writeBody t header data).1 ++ [.release], (writeBody t header data).2)

/-- Outcome of `VAT590Protocol.clear`: returned `True`, raised an
exception, or is still looping (the loop only ends via an exception). -/
inductive ClearOut where
  | success
  | raised (e : Exc)
  | running
  deriving DecidableEq, Repr

/-- Loop of `VAT590Protocol.clear` (protocol.py lines 85-89), fuelled:
`read_bytes(25)` repeatedly; `SerialTimeoutException` is caught and ends
the loop with `True`; any other exception propagates unchanged. -/
def clearAux (t : Transport) : Nat → Nat → List Ev × ClearOut
  | 0, _ => ([], .running)
  | fuel + 1, i =>
    match t.chunks i with
    | .ok _ =>
      (.readBytes 25 :: (clearAux t fuel (i + 1)).1, (clearAux t fuel (i + 1)).2)
    | .error .serialTimeout => ([.readBytes 25], .success)
    | .error e => ([.readBytes 25], .raised e)

/-- Embeds `VAT590Protocol.clear` (protocol.py lines 83-89): the `with`
statement around the read loop.  While the loop is still `running` the
call has not exited, so no release has happened yet. -/
def clear (t : Transport) (fuel : Nat) : List Ev × ClearOut :=
  match clearAux t fuel 0 with
  | (ev, .running) => (.acquire :: ev, .running)
  | (ev, r) => (.acquire :: ev ++ [.release], r)

/-- True when a trace contains no lock events. -/
def lockFree (l : List Ev) : Bool :=
  l.all (fun e => match e with | .acquire => false | .release => false | _ => true)

/-- Projection of a tagged trace onto one session. -/
def proj (s : Bool) (m : List (Bool × Ev)) : List Ev :=
  (m.filter (fun p => p.1 = s)).map Prod.snd

/-- Lock automaton: state is the current holder.  Acquiring requires the
lock free; while held, only the holder's events may occur, and its
release frees the lock. -/
def step : Option Bool → Bool × Ev → Option (Option Bool)
  | none, (s, .acquire) => some (some s)
  | none, _ => none
  | some s, (s', e) =>
    if s' = s then
      match e with
      | .acquire => none
      | .release => some none
      | _ => some (some s)
    else none

/-- A tagged trace is valid from a lock state when every event is
permitted by `step`. -/
def validFrom : Option Bool → List (Bool × Ev) → Bool
  | _, [] => true
  | st, e :: m =>
    match step st e with
    | none => false
    | some st' => validFrom st' m

/-- Python `s.zfill(w)`: left-pad with zeros to width `w`, keeping a
leading sign character in front of the padding. -/
def pyZfill (w : Nat) (s : List Char) : List Char :=
  if s.length ≥ w then s
  else
    match s with
    | [] => List.replicate w '0'
    | c :: rest =>
      if c = '-' || c = '+' then c :: (List.replicate (w - s.length) '0' ++ rest)
      else List.replicate (w - s.length) '0' ++ s

/-- Decimal digits of an integer, Python `str(n)`. -/
def intChars (n : Int) : List Char := (toString n).data

/-- Action taken by a driver setter: raise `ValueError` before any
transmission, or issue `self._write` with the formatted payload. -/
inductive DriverAct where
  | raiseValueError
  | writeCmd (payload : List Char)
  deriving DecidableEq, Repr

/-- Embeds the guard and write of `VAT590Driver.set_position`
(driver.py lines 209-216): `if not setpoint > 0 or setpoint < 1000000`
raises `ValueError`, else `self._write(self.__position,
str(setpoint).zfill(6))`.  The `isinstance` check is subsumed by the
`Int` argument type. -/
def set_position (setpoint : Int) : DriverAct :=
  if (¬ (setpoint > 0)) ∨ (setpoint < 1000000) then .raiseValueError
  else .writeCmd (pyZfill 6 (intChars setpoint))

/-- Embeds the guard and write of `VAT590Driver.set_pressure`
(driver.py lines 227-234): `if setpoint < 0 or setpoint < 100000000`
raises `ValueError`, else writes `str(setpoint).zfill(8)`. -/
def set_pressure (setpoint : Int) : DriverAct :=
  if (setpoint < 0) ∨ (setpoint < 100000000) then .raiseValueError
  else .writeCmd (pyZfill 8 (intChars setpoint))

/-- Entries of the `ERROR_INDEX` dict literal (constants.py lines
115-130), in source order.  The labels `Unknown command` and
`Invalid value` each occur twice. -/
def ERROR_INDEX_entries : List (List Char × List Char) :=
  [ (chars ("Parity error"), chars ("E:000001:")),
    (chars ("Input buffer overflow (too many characters)"), chars ("E:000002:")),
    (chars ("Framing error (data length, number of stop bits)"), chars ("E:000003:")),
    (chars ("<CR> or <LF> missing"), chars ("E:000010:")),
    (chars (": missing"), chars ("E:000011:")),
    (chars ("Invalid number of characters (between : and <CR><LF>)"), chars ("E:000012:")),
    (chars ("Unknown command"), chars ("E:000020:")),
    (chars ("Unknown command"), chars ("E:000021:")),
    (chars ("Invalid value"), chars ("E:000022:")),
    (chars ("Invalid value"), chars ("E:000023:")),
    (chars ("Value out of range"), chars ("E:000030:")),
    (chars ("Command not applicable for hardware configuration"), chars ("E:000041:")),
    (chars ("Command not accepted due to local operation"), chars ("E:000080:")),
    (chars ("Command not accepted due to synchronization, CLOSED or OPEN by digital input, safety mode of fatal error"), chars ("E:000082:")) ]

/-- One insertion into a Python dict under construction: an existing key
keeps its place and gets the new value, a new key is appended. -/
def pyDictInsert (d : List (List Char × List Char)) (k v : List Char) :
    List (List Char × List Char) :=
  match d with
  | [] => [(k, v)]
  | (k', v') :: rest =>
    if k' = k then (k', v) :: rest else (k', v') :: pyDictInsert rest k v

/-- Python dict-literal construction: insert the entries left to right;
a duplicate key silently overwrites the earlier binding.  Construction
never fails. -/
def pyDict (es : List (List Char × List Char)) : List (List Char × List Char) :=
  es.foldl (fun d e => pyDictInsert d e.1 e.2) []

/-- Lookup in the constructed dict. -/
def dictFind (d : List (List Char × List Char)) (k : List Char) : Option (List Char) :=
  match d with
  | [] => none
  | (k', v) :: rest => if k' = k then some v else dictFind rest k

/-- True when the key list contains a repeated key. -/
def hasDupKeys : List (List Char) → Bool
  | [] => false
  | k :: ks => ks.contains k || hasDupKeys ks

instance {ε α : Type} [DecidableEq ε] [DecidableEq α] : DecidableEq (Except ε α) := fun x y =>
  match x, y with
  | .ok a, .ok b =>
    if h : a = b then .isTrue (by rw [h]) else .isFalse (fun hh => by cases hh; exact h rfl)
  | .error e, .error f =>
    if h : e = f then .isTrue (by rw [h]) else .isFalse (fun hh => by cases hh; exact h rfl)
  | .ok _, .error _ => .isFalse (fun hh => by cases hh)
  | .error _, .ok _ => .isFalse (fun hh => by cases hh)

/-- Transport double that accepts the write and replies
`"R:001234\r\n"`; further reads time out. -/
def tEcho : Transport :=
  { writeResult := .ok (), readUntilResult := .ok (strBytes ("R:001234") ++ [13, 10]),
    chunks := fun _ => .error .serialTimeout }

/-- Transport double whose write raises a raw transport exception and
whose reads time out. -/
def tFail : Transport :=
  { writeResult := .error (.transportFault (chars ("boom"))),
    readUntilResult := .error .serialTimeout,
    chunks := fun _ => .error .serialTimeout }

/-- Transport double for `clear`: one chunk is delivered, then
`read_bytes` raises a raw non-timeout transport exception. -/
def tClearFail : Transport :=
  { writeResult := .ok (), readUntilResult := .error .serialTimeout,
    chunks := fun i => if i < 1 then .ok [0] else .error (.transportFault (chars ("boom"))) }

/-- Transport double for `clear`: three chunks are delivered, then the
read times out (the spec's test scenario). -/
def tClearOk : Transport :=
  { writeResult := .ok (), readUntilResult := .error .serialTimeout,
    chunks := fun i => if i < 3 then .ok [0] else .error .serialTimeout }

/-- Concrete merged schedule of two `query` exchanges on `tEcho`, one
after the other, for the mutual-exclusion witness. -/
def mW : List (Bool × Ev) :=
  ((query tEcho (chars ("R:")) []).1.map (fun e => (true, e))) ++
    ((query tEcho (chars ("R:")) []).1.map (fun e => (false, e)))

/-! ## Helper lemmas -/

theorem char_ofNat_toNat (c : Char) : Char.ofNat c.toNat = c := by
  have hv : c.toNat.isValidChar := c.valid
  unfold Char.ofNat
  rw [dif_pos hv]
  apply Char.eq_of_val_eq
  show UInt32.mk (BitVec.ofNatLt c.toNat _) = c.val
  cases c with
  | mk v valid =>
    cases v with
    | mk bv =>
      cases bv with
      | ofFin f => rfl

theorem map_ofNat_toNat (s : List Char) : (s.map Char.toNat).map Char.ofNat = s := by
  rw [List.map_map]
  induction s with
  | nil => rfl
  | cons c cs ih => simp only [List.map_cons, Function.comp_apply, char_ofNat_toNat, ih]

theorem allAsciiBytes_map_toNat (s : List Char) :
    allAsciiBytes (s.map Char.toNat) = allAsciiChars s := by
  induction s with
  | nil => rfl
  | cons c cs ih =>
    simp only [List.map_cons, allAsciiBytes, allAsciiChars, List.all_cons] at ih ⊢
    rw [ih]

theorem decodeAscii_encode (s : List Char) (h : allAsciiChars s = true) :
    decodeAscii (s.map Char.toNat) = .ok s := by
  unfold decodeAscii
  rw [if_pos, map_ofNat_toNat]
  rw [allAsciiBytes_map_toNat]
  exact h

theorem startsWith_cons_head (c : Char) (s : List Char) :
    startsWith (c :: s) [c] = true := by
  simp [startsWith]

theorem chars_E_colon : chars ("E:") = ['E', ':'] := rfl

theorem dictFind_pyDictInsert (d : List (List Char × List Char)) (k v : List Char) :
    dictFind (pyDictInsert d k v) k = some v := by
  induction d with
  | nil => simp [pyDictInsert, dictFind]
  | cons e rest ih =>
    obtain ⟨k', v'⟩ := e
    by_cases h : k' = k
    · simp [pyDictInsert, dictFind, h]
    · simp [pyDictInsert, dictFind, h, ih]

theorem pyDict_append_single (es : List (List Char × List Char)) (k v : List Char) :
    pyDict (es ++ [(k, v)]) = pyDictInsert (pyDict es) k v := by
  simp [pyDict, List.foldl_append]

/-! ## Claim theorems -/

/-- C1 counterexample: the response `"RX001234"` does not begin with the
error marker and does not start with the expected tag `"R:"`, yet
`parse_response` accepts it and returns `["001234"]` instead of failing
with a header mismatch, because line 44 compares only `header[0]`. -/
theorem parse_response_accepts_mismatched_second_char :
    startsWith (chars ("RX001234")) (chars ("E:")) = false ∧
    startsWith (chars ("RX001234")) (chars ("R:")) = false ∧
    parse_response (strBytes ("RX001234")) (chars ("R:")) =
      .ok [chars ("001234")] := by decide

/-- C1 (amended): for every ASCII response not beginning with `E:` and a
non-empty expected tag, `parse_response` fails with the header-mismatch
`ValueError` (whose message quotes the received response and only the
FIRST character of the tag) exactly when the response's first character
differs from the tag's first character; when the first characters agree
the response is accepted, `len(header)` characters are stripped,
regardless of the remaining tag characters. -/
theorem parse_response_checks_first_char_only (response : List Char) (h0 : Char)
    (htl : List Char) (hA : allAsciiChars response = true)
    (hE : startsWith response (chars ("E:")) = false) :
    (startsWith response [h0] = false →
      parse_response (response.map Char.toNat) (h0 :: htl) =
        .error (.valueError (mismatchMsg response h0))) ∧
    (startsWith response [h0] = true →
      parse_response (response.map Char.toNat) (h0 :: htl) =
        .ok (pySplit (response.drop (h0 :: htl).length))) := by
  rw [chars_E_colon] at hE
  constructor
  · intro hm
    unfold parse_response
    rw [decodeAscii_encode _ hA]
    simp [hE, hm]
  · intro hm
    unfold parse_response
    rw [decodeAscii_encode _ hA]
    simp [hE, hm]

/-- C1 witness: instantiation of the amended theorem at the response
`"RX001234"` and tag `"R:"`. -/
theorem parse_response_checks_first_char_only_witness :
    parse_response ((chars ("RX001234")).map Char.toNat) ('R' :: [':']) =
      .ok (pySplit ((chars ("RX001234")).drop ('R' :: [':']).length)) :=
  (parse_response_checks_first_char_only (chars ("RX001234")) 'R' [':']
    (by decide) (by decide)).2 (by decide)

/-- C2 counterexample: parsing `"E:000001:"` raises `ErrorResponse`
carrying the WHOLE raw response `"E:000001:"` (protocol.py line 42
passes `response`, not the substring after the marker), whereas the
claim says the carried code is `"000001:"`. -/
theorem parse_response_error_carries_full_response :
    parse_response (strBytes ("E:000001:")) (chars ("R:")) =
      .error (.errorResponse (chars ("E:000001:"))) ∧
    chars ("E:000001:") ≠ chars ("000001:") := by decide

/-- C2 (amended): for every ASCII response beginning with the error
marker `E:`, `parse_response` fails with `ErrorResponse` carrying the
entire raw response, error marker included. -/
theorem parse_response_error_marker (response header : List Char)
    (hA : allAsciiChars response = true)
    (hE : startsWith response (chars ("E:")) = true) :
    parse_response (response.map Char.toNat) header =
      .error (.errorResponse response) := by
  rw [chars_E_colon] at hE
  unfold parse_response
  rw [decodeAscii_encode _ hA]
  simp [hE]

/-- C2 witness: instantiation of the amended theorem at `"E:000001:"`. -/
theorem parse_response_error_marker_witness :
    parse_response ((chars ("E:000001:")).map Char.toNat) (chars ("R:")) =
      .error (.errorResponse (chars ("E:000001:"))) :=
  parse_response_error_marker (chars ("E:000001:")) (chars ("R:")) (by decide) (by decide)

/-- C6: for every ASCII response consisting of the expected tag followed
by a remainder, when the response does not begin with `E:`,
`parse_response` strips the tag and splits the remainder on whitespace
into an ordered token list; splitting an empty remainder gives the
empty list. -/
theorem parse_response_strips_tag_and_splits (h0 : Char) (htl rest : List Char)
    (hA : allAsciiChars ((h0 :: htl) ++ rest) = true)
    (hE : startsWith ((h0 :: htl) ++ rest) (chars ("E:")) = false) :
    parse_response (((h0 :: htl) ++ rest).map Char.toNat) (h0 :: htl) =
      .ok (pySplit rest) ∧ pySplit ([] : List Char) = [] := by
  refine ⟨?_, rfl⟩
  rw [chars_E_colon] at hE
  have hs : startsWith ((h0 :: htl) ++ rest) [h0] = true := by
    simp [startsWith]
  unfold parse_response
  rw [decodeAscii_encode _ hA]
  simp only [hE, hs, Bool.false_eq_true, if_false, if_true]
  rw [List.drop_left]

/-- C6 witness: instantiation at the spec's example, tag `"R:"` and
response `"R:001234"`, which tokenizes to `["001234"]`. -/
theorem parse_response_strips_tag_and_splits_witness :
    parse_response ((('R' :: [':']) ++ chars ("001234")).map Char.toNat) ('R' :: [':']) =
      .ok (pySplit (chars ("001234"))) ∧ pySplit ([] : List Char) = [] :=
  parse_response_strips_tag_and_splits 'R' [':'] (chars ("001234")) (by decide) (by decide)

/-- C9 counterexample: the `ERROR_INDEX` table has duplicate labels
(`'Unknown command'` and `'Invalid value'` each appear twice, 14 entries
in all), yet construction does not fail at build time: the Python dict
literal silently builds a 12-entry dict in which the later binding won
(`'Unknown command'` maps to `'E:000021:'`). -/
theorem error_index_duplicate_labels_build_ok :
    hasDupKeys (ERROR_INDEX_entries.map Prod.fst) = true ∧
    ERROR_INDEX_entries.length = 14 ∧
    (pyDict ERROR_INDEX_entries).length = 12 ∧
    dictFind (pyDict ERROR_INDEX_entries) (chars ("Unknown command")) =
      some (chars ("E:000021:")) := by decide

/-- C9 (amended): enumeration tables are plain dict literals built with
no validation at all: construction always succeeds, and a repeated label
is silently collapsed with the last binding winning (in general, and in
particular in `ERROR_INDEX`, whose duplicate labels map to
`'E:000021:'` and `'E:000023:'`). -/
theorem enum_table_no_validation :
    (∀ es k v, dictFind (pyDict (es ++ [(k, v)])) k = some v) ∧
    hasDupKeys (ERROR_INDEX_entries.map Prod.fst) = true ∧
    dictFind (pyDict ERROR_INDEX_entries) (chars ("Unknown command")) =
      some (chars ("E:000021:")) ∧
    dictFind (pyDict ERROR_INDEX_entries) (chars ("Invalid value")) =
      some (chars ("E:000023:")) := by
  refine ⟨fun es k v => ?_, by decide, by decide, by decide⟩
  rw [pyDict_append_single, dictFind_pyDictInsert]

/-- C10: `set_position` raises `ValueError` for every integer setpoint
strictly below 1000000 (so the whole documented open range
(0, 1000000) is rejected before transmitting) and issues the write
exactly for setpoints of at least 1000000; `set_pressure` likewise
rejects every setpoint below 100000000. -/
theorem setpoint_guards :
    (∀ n : Int, n < 1000000 → set_position n = .raiseValueError) ∧
    (∀ n : Int, 1000000 ≤ n → set_position n = .writeCmd (pyZfill 6 (intChars n))) ∧
    (∀ n : Int, n < 100000000 → set_pressure n = .raiseValueError) ∧
    (∀ n : Int, 100000000 ≤ n → set_pressure n = .writeCmd (pyZfill 8 (intChars n))) := by
  refine ⟨fun n h => ?_, fun n h => ?_, fun n h => ?_, fun n h => ?_⟩
  · unfold set_position; rw [if_pos (Or.inr h)]
  · unfold set_position; rw [if_neg (by omega)]
  · unfold set_pressure; rw [if_pos (Or.inr h)]
  · unfold set_pressure; rw [if_neg (by omega)]

/-- C10 witness: instantiation at the boundary setpoints 999999,
1000000, 99999999 and 100000000. -/
theorem setpoint_guards_witness :
    set_position 999999 = DriverAct.raiseValueError ∧
    set_position 1000000 = DriverAct.writeCmd (pyZfill 6 (intChars 1000000)) ∧
    set_pressure 99999999 = DriverAct.raiseValueError ∧
    set_pressure 100000000 = DriverAct.writeCmd (pyZfill 8 (intChars 100000000)) :=
  ⟨setpoint_guards.1 999999 (by decide),
   setpoint_guards.2.1 1000000 (by decide),
   setpoint_guards.2.2.1 99999999 (by decide),
   setpoint_guards.2.2.2 100000000 (by decide)⟩

theorem joinAll_cons (x : List Char) (ls : List (List Char)) :
    joinAll (x :: ls) = x ++ joinAll ls := rfl

theorem joinAll_append (a b : List (List Char)) :
    joinAll (a ++ b) = joinAll a ++ joinAll b := by
  induction a with
  | nil => rfl
  | cons x xs ih => simp [joinAll_cons, ih, List.append_assoc]

theorem parse_response_ok_cons_ne_nil (header tok : List Char) (toks : List (List Char))
    (h : parse_response [] header = .ok (tok :: toks)) : False := by
  cases header with
  | nil => simp [parse_response, decodeAscii, allAsciiBytes, startsWith] at h
  | cons h0 htl => simp [parse_response, decodeAscii, allAsciiBytes, startsWith] at h

/-- C7: any lower-level fault during `send_message` is translated to
`CommunicationError("Could not send data")`, any failure or timeout
during `read_response` is translated to
`CommunicationError("Could not read response")`, and no other outcome
than success or a `CommunicationError` is possible for either: the
underlying transport exception never escapes untranslated. -/
theorem send_receive_translate_faults :
    (∀ (t : Transport) (raw : List Nat) (f : Exc), t.writeResult = .error f →
      (send_message t raw).2 =
        .error (.communicationError (chars ("Could not send data")))) ∧
    (∀ (t : Transport) (f : Exc), t.readUntilResult = .error f →
      (read_response t).2 =
        .error (.communicationError (chars ("Could not read response")))) ∧
    (∀ (t : Transport) (raw : List Nat), (send_message t raw).2 = .ok () ∨
      (send_message t raw).2 =
        .error (.communicationError (chars ("Could not send data")))) ∧
    (∀ (t : Transport), (∃ bs, (read_response t).2 = .ok bs) ∨
      (read_response t).2 =
        .error (.communicationError (chars ("Could not read response")))) := by
  refine ⟨fun t raw f hf => ?_, fun t f hf => ?_, fun t raw => ?_, fun t => ?_⟩
  · simp [send_message, hf]
  · simp [read_response, hf]
  · rcases hw : t.writeResult with f | u
    · right; simp [send_message, hw]
    · left; cases u; simp [send_message, hw]
  · rcases hr : t.readUntilResult with f | bs
    · right; simp [read_response, hr]
    · left
      refine ⟨bs.take (bs.length - 2), ?_⟩
      simp [read_response, hr]

/-- C7 witness: on the transport double `tFail` both primitives fail
and both calls report the corresponding `CommunicationError`. -/
theorem send_receive_translate_faults_witness :
    (send_message tFail (strBytes ("A:\r\n"))).2 =
      .error (.communicationError (chars ("Could not send data"))) ∧
    (read_response tFail).2 =
      .error (.communicationError (chars ("Could not read response"))) :=
  ⟨send_receive_translate_faults.1 tFail (strBytes ("A:\r\n"))
      (.transportFault (chars ("boom"))) rfl,
   send_receive_translate_faults.2.1 tFail .serialTimeout rfl⟩

/-- C8: the wire message built by `create_message` is exactly the tag,
then the payload fragments in order, then the two-byte CR LF
terminator, ASCII-encoded (at byte level the message ends in
`[13, 10]`); and `read_response` strips exactly those two terminator
bytes from the data `read_until` returned. -/
theorem wire_format :
    (∀ (header : List Char) (data : List (List Char)),
      allAsciiChars (joinAll (header :: (data ++ [['\r', '\n']]))) = true →
      create_message header data =
        .ok ((header ++ joinAll data ++ ['\r', '\n']).map Char.toNat)) ∧
    (∀ (s : List Char),
      (s ++ ['\r', '\n']).map Char.toNat = s.map Char.toNat ++ [13, 10]) ∧
    (∀ (t : Transport) (b : List Nat),
      t.readUntilResult = .ok (b ++ [13, 10]) → (read_response t).2 = .ok b) := by
  refine ⟨fun header data h => ?_, fun s => ?_, fun t b h => ?_⟩
  · unfold create_message encodeAscii
    rw [if_pos h]
    congr 1
    rw [joinAll_cons, joinAll_append]
    simp [joinAll, List.append_assoc]
  · simp
  · simp only [read_response, h]
    have hl : (b ++ [13, 10]).length - 2 = b.length := by simp
    rw [hl, List.take_left]

/-- C8 witness: the message for tag `"A:"` and payload `"001000"`, and
the stripped reply on the echoing transport double. -/
theorem wire_format_witness :
    create_message (chars ("A:")) [chars ("001000")] =
      .ok ((chars ("A:") ++ joinAll [chars ("001000")] ++ ['\r', '\n']).map Char.toNat) ∧
    (read_response tEcho).2 = .ok (strBytes ("R:001234")) :=
  ⟨wire_format.1 (chars ("A:")) [chars ("001000")] (by decide),
   wire_format.2.2 tEcho (strBytes ("R:001234")) rfl⟩

/-- C5: `write` emits exactly the same event sequence as `query`; under
a working transport it always succeeds whatever the reply bytes are
(device error replies included), returning the anomaly-logged flag,
which is set whenever the raw stripped reply is non-empty; in
particular whenever the parsed reply would be a non-empty token list,
the anomaly is logged and the call still does not fail. -/
theorem write_tolerates_reply :
    (∀ (t : Transport) (header : List Char) (data : List (List Char)),
      (write t header data).1 = (query t header data).1) ∧
    (∀ (t : Transport) (header : List Char) (data : List (List Char))
        (msg bs : List Nat),
      create_message header data = .ok msg → t.writeResult = .ok () →
      t.readUntilResult = .ok bs →
      (write t header data).2 = .ok (decide ((bs.take (bs.length - 2)).length > 0)) ∧
      (∀ (tok : List Char) (toks : List (List Char)),
        parse_response (bs.take (bs.length - 2)) header = .ok (tok :: toks) →
        (write t header data).2 = .ok true)) := by
  constructor
  · intro t header data
    unfold write query writeBody queryBody
    rcases create_message header data with e | msg
    · rfl
    · rcases hw : t.writeResult with f | u <;>
        rcases hr : t.readUntilResult with g | bs <;>
        simp [send_message, read_response, hw, hr]
  · intro t header data msg bs hc hw hr
    constructor
    · unfold write writeBody
      rw [hc]
      simp [send_message, read_response, hw, hr]
    · intro tok toks hp
      unfold write writeBody
      rw [hc]
      simp only [send_message, read_response, hw, hr]
      have hne : bs.take (bs.length - 2) ≠ [] := by
        intro hnil
        rw [hnil] at hp
        exact parse_response_ok_cons_ne_nil header tok toks hp
      have hpos : (bs.take (bs.length - 2)).length > 0 := List.length_pos.mpr hne
      rw [decide_eq_true hpos]

/-- C5 witness: on the echoing transport double, a `write` receiving
the non-empty reply `"R:001234"` matches `query`'s trace, logs the
anomaly and still succeeds. -/
theorem write_tolerates_reply_witness :
    (write tEcho (chars ("R:")) []).1 = (query tEcho (chars ("R:")) []).1 ∧
    (write tEcho (chars ("R:")) []).2 = .ok true :=
  ⟨write_tolerates_reply.1 tEcho (chars ("R:")) [],
   (write_tolerates_reply.2 tEcho (chars ("R:")) [] (strBytes ("R:\r\n"))
      (strBytes ("R:001234") ++ [13, 10]) rfl rfl rfl).2
      (chars ("001234")) [] (by decide)⟩

theorem clearAux_run (t : Transport) :
    ∀ (n fuel i : Nat), (∀ j, j < n → ∃ bs, t.chunks (i + j) = .ok bs) → n < fuel →
    ∀ f, t.chunks (i + n) = .error f →
    clearAux t fuel i = (List.replicate (n + 1) (.readBytes 25),
      if f = .serialTimeout then .success else .raised f) := by
  intro n
  induction n with
  | zero =>
    intro fuel i _ hfuel f hf
    obtain ⟨m, rfl⟩ : ∃ m, fuel = m + 1 := ⟨fuel - 1, by omega⟩
    rw [Nat.add_zero] at hf
    unfold clearAux
    rw [hf]
    cases f <;> simp
  | succ n ih =>
    intro fuel i hok hfuel f hf
    obtain ⟨m, rfl⟩ : ∃ m, fuel = m + 1 := ⟨fuel - 1, by omega⟩
    obtain ⟨bs, hbs⟩ := hok 0 (Nat.succ_pos n)
    rw [Nat.add_zero] at hbs
    have hrec := ih m (i + 1)
      (fun j hj => by
        have := hok (j + 1) (by omega)
        rwa [show i + (j + 1) = i + 1 + j by omega] at this)
      (by omega) f
      (by rwa [show i + 1 + n = i + (n + 1) by omega])
    unfold clearAux
    rw [hbs, hrec]
    simp [List.replicate_succ]

/-- C4 counterexample: on `tClearFail` the second read raises a raw
non-timeout transport exception and `clear` propagates it unchanged:
the outcome is the raw `transportFault`, which is not a
`CommunicationError`. -/
theorem clear_propagates_raw_fault :
    (clear tClearFail 5).2 = .raised (.transportFault (chars ("boom"))) ∧
    Exc.isCommError (.transportFault (chars ("boom"))) = false := by decide

/-- C4 (amended): `clear` repeatedly reads 25-byte chunks; when the
read after `n` delivered chunks times out, it consumes exactly those
`n` chunks (issuing `n + 1` reads) and returns success without
propagating the timeout; when that read instead raises any non-timeout
exception, `clear` propagates that exception unchanged rather than
translating it to `CommunicationError`. -/
theorem clear_semantics (t : Transport) (n fuel : Nat)
    (hok : ∀ j, j < n → ∃ bs, t.chunks j = .ok bs) (hfuel : n < fuel) :
    (t.chunks n = .error .serialTimeout →
      clear t fuel =
        (.acquire :: List.replicate (n + 1) (.readBytes 25) ++ [.release], .success)) ∧
    (∀ f, t.chunks n = .error f → f ≠ .serialTimeout →
      clear t fuel =
        (.acquire :: List.replicate (n + 1) (.readBytes 25) ++ [.release], .raised f)) := by
  have hok' : ∀ j, j < n → ∃ bs, t.chunks (0 + j) = .ok bs := by
    intro j hj; rw [Nat.zero_add]; exact hok j hj
  constructor
  · intro hf
    have := clearAux_run t n fuel 0 hok' hfuel .serialTimeout (by rwa [Nat.zero_add])
    unfold clear
    rw [this]
    simp
  · intro f hf hne
    have := clearAux_run t n fuel 0 hok' hfuel f (by rwa [Nat.zero_add])
    unfold clear
    rw [this, if_neg hne]

/-- C4 witness: on `tClearOk`, which delivers 3 chunks and then times
out, `clear` consumes exactly the 3 chunks (4 reads) and returns
success. -/
theorem clear_semantics_witness :
    clear tClearOk 5 =
      (.acquire :: List.replicate 4 (.readBytes 25) ++ [.release], .success) :=
  (clear_semantics tClearOk 3 5
    (fun j hj => ⟨[0], by simp [tClearOk, hj]⟩) (by decide)).1 (by decide)

theorem proj_nil (s : Bool) : proj s [] = [] := rfl

theorem proj_cons_same (s : Bool) (e : Ev) (m : List (Bool × Ev)) :
    proj s ((s, e) :: m) = e :: proj s m := by
  simp [proj, List.filter_cons]

theorem proj_cons_other (s s' : Bool) (e : Ev) (m : List (Bool × Ev)) (h : s' ≠ s) :
    proj s ((s', e) :: m) = proj s m := by
  simp [proj, List.filter_cons, h]

theorem proj_empty_other (s : Bool) (m : List (Bool × Ev)) (h : proj s m = []) :
    m = (proj (!s) m).map (fun e => (!s, e)) := by
  induction m with
  | nil => rfl
  | cons p rest ih =>
    obtain ⟨s', e⟩ := p
    by_cases hs : s' = s
    · subst hs
      rw [proj_cons_same] at h
      exact absurd h (List.cons_ne_nil _ _)
    · have hs' : s' = !s := by cases s <;> cases s' <;> simp_all
      subst hs'
      rw [proj_cons_other s (!s) e rest (by cases s <;> simp)] at h
      rw [proj_cons_same (!s) e rest, List.map_cons]
      exact congrArg (fun l => ((!s), e) :: l) (ih h)

theorem lock_held_block (s : Bool) :
    ∀ (m : List (Bool × Ev)) (a : List Ev), validFrom (some s) m = true →
      proj s m = a ++ [Ev.release] → lockFree a = true →
      ∃ m', m = ((a ++ [Ev.release]).map (fun e => (s, e))) ++ m' ∧
        validFrom none m' = true ∧ proj s m' = [] ∧ proj (!s) m' = proj (!s) m := by
  intro m
  induction m with
  | nil =>
    intro a hv hp hf
    rw [proj_nil] at hp
    simp at hp
  | cons p rest ih =>
    intro a hv hp hf
    obtain ⟨s', e⟩ := p
    by_cases hs : s = s'
    · subst hs
      rw [proj_cons_same] at hp
      cases a with
      | nil =>
        rw [List.nil_append] at hp
        injection hp with he hrest
        subst he
        have hstep : step (some s) (s, Ev.release) = some none := by simp [step]
        have hv' : validFrom none rest = true := by simpa [validFrom, hstep] using hv
        refine ⟨rest, by simp, hv', hrest, ?_⟩
        rw [proj_cons_other (!s) s Ev.release rest (by cases s <;> simp)]
      | cons x a' =>
        rw [List.cons_append] at hp
        injection hp with he hrest
        subst he
        unfold lockFree at hf
        rw [List.all_cons, Bool.and_eq_true] at hf
        obtain ⟨hx, hfa'⟩ := hf
        have hstep : step (some s) (s, e) = some (some s) := by
          cases e <;> simp_all [step]
        have hv' : validFrom (some s) rest = true := by simpa [validFrom, hstep] using hv
        obtain ⟨m', hm, hvn, hps, hpo⟩ := ih a' hv' hrest hfa'
        refine ⟨m', ?_, hvn, hps, ?_⟩
        · rw [hm]
          simp [List.map_cons]
        · rw [hpo]
          rw [proj_cons_other (!s) s e rest (by cases s <;> simp)]
    · have hs2 : s' ≠ s := fun h => hs h.symm
      have hstep : step (some s) (s', e) = none := by simp [step, hs2]
      simp [validFrom, hstep] at hv

theorem lock_exclusion (m : List (Bool × Ev)) (a b : List Ev)
    (ha : proj true m = Ev.acquire :: (a ++ [Ev.release]))
    (hb : proj false m = Ev.acquire :: (b ++ [Ev.release]))
    (hfa : lockFree a = true) (hfb : lockFree b = true)
    (hv : validFrom none m = true) :
    m = ((Ev.acquire :: (a ++ [Ev.release])).map (fun e => (true, e))) ++
        ((Ev.acquire :: (b ++ [Ev.release])).map (fun e => (false, e))) ∨
    m = ((Ev.acquire :: (b ++ [Ev.release])).map (fun e => (false, e))) ++
        ((Ev.acquire :: (a ++ [Ev.release])).map (fun e => (true, e))) := by
  cases m with
  | nil => simp [proj] at ha
  | cons p rest =>
    obtain ⟨s, e⟩ := p
    have he : e = .acquire := by
      cases e <;> simp_all [validFrom, step]
    subst he
    have hstep : step none (s, Ev.acquire) = some (some s) := by simp [step]
    have hv' : validFrom (some s) rest = true := by simpa [validFrom, hstep] using hv
    cases s
    · rw [proj_cons_other true false Ev.acquire rest (by simp)] at ha
      rw [proj_cons_same false Ev.acquire rest] at hb
      injection hb with hb0 hbtail
      obtain ⟨m', hm, hvn, hps, hpo⟩ := lock_held_block false rest b hv' hbtail hfb
      simp only [Bool.not_false] at hpo
      have hm' : m' = (proj true m').map (fun e => (true, e)) := by
        have := proj_empty_other false m' hps
        simpa using this
      rw [hpo, ha] at hm'
      right
      rw [hm, hm']
      simp [List.map_cons]
    · rw [proj_cons_other false true Ev.acquire rest (by simp)] at hb
      rw [proj_cons_same true Ev.acquire rest] at ha
      injection ha with ha0 hatail
      obtain ⟨m', hm, hvn, hps, hpo⟩ := lock_held_block true rest a hv' hatail hfa
      simp only [Bool.not_true] at hpo
      have hm' : m' = (proj false m').map (fun e => (false, e)) := by
        have := proj_empty_other true m' hps
        simpa using this
      rw [hpo, hb] at hm'
      left
      rw [hm, hm']
      simp [List.map_cons]

theorem queryBody_lockFree (t : Transport) (header : List Char) (data : List (List Char)) :
    lockFree (queryBody t header data).1 = true := by
  unfold queryBody
  rcases create_message header data with e | msg
  · rfl
  · rcases hw : t.writeResult with f | u <;>
      rcases hr : t.readUntilResult with g | bs <;>
      simp [send_message, read_response, hw, hr, lockFree]

theorem writeBody_lockFree (t : Transport) (header : List Char) (data : List (List Char)) :
    lockFree (writeBody t header data).1 = true := by
  unfold writeBody
  rcases create_message header data with e | msg
  · rfl
  · rcases hw : t.writeResult with f | u <;>
      rcases hr : t.readUntilResult with g | bs <;>
      simp [send_message, read_response, hw, hr, lockFree]

theorem clearAux_lockFree (t : Transport) :
    ∀ (fuel i : Nat), lockFree (clearAux t fuel i).1 = true := by
  intro fuel
  induction fuel with
  | zero => intro i; rfl
  | succ m ih =>
    intro i
    unfold clearAux
    rcases t.chunks i with e | bs
    · cases e <;> rfl
    · have := ih (i + 1)
      unfold lockFree at this ⊢
      rw [List.all_cons, Bool.and_eq_true]
      exact ⟨rfl, this⟩

/-- C3: every `query` and `write` trace is the acquire event, then the
body's events (which contain no lock events: the sends and reads all
happen while the lock is held), then the release event, on every exit
path, success or failure; `clear` has the same shape whenever it exits;
and consequently, in any lock-respecting merged schedule of two
concurrent `query` exchanges, one exchange's full event sequence
precedes the other's: their send/receive byte sequences never
interleave. -/
theorem lock_discipline :
    (∀ (t : Transport) (header : List Char) (data : List (List Char)),
      (query t header data).1 = .acquire :: (queryBody t header data).1 ++ [.release] ∧
      lockFree (queryBody t header data).1 = true) ∧
    (∀ (t : Transport) (header : List Char) (data : List (List Char)),
      (write t header data).1 = .acquire :: (writeBody t header data).1 ++ [.release] ∧
      lockFree (writeBody t header data).1 = true) ∧
    (∀ (t : Transport) (fuel : Nat), (clear t fuel).2 ≠ .running →
      (clear t fuel).1 = .acquire :: (clearAux t fuel 0).1 ++ [.release] ∧
      lockFree (clearAux t fuel 0).1 = true) ∧
    (∀ (m : List (Bool × Ev)) (t₁ t₂ : Transport) (h₁ h₂ : List Char)
        (d₁ d₂ : List (List Char)),
      proj true m = (query t₁ h₁ d₁).1 → proj false m = (query t₂ h₂ d₂).1 →
      validFrom none m = true →
      m = ((query t₁ h₁ d₁).1.map (fun e => (true, e))) ++
          ((query t₂ h₂ d₂).1.map (fun e => (false, e))) ∨
      m = ((query t₂ h₂ d₂).1.map (fun e => (false, e))) ++
          ((query t₁ h₁ d₁).1.map (fun e => (true, e)))) := by
  refine ⟨fun t header data => ⟨rfl, queryBody_lockFree t header data⟩,
          fun t header data => ⟨rfl, writeBody_lockFree t header data⟩,
          fun t fuel hne => ?_, fun m t₁ t₂ h₁ h₂ d₁ d₂ ha hb hv => ?_⟩
  · refine ⟨?_, clearAux_lockFree t fuel 0⟩
    unfold clear at hne ⊢
    rcases hc : clearAux t fuel 0 with ⟨ev, r⟩
    rw [hc] at hne
    cases r with
    | running => exact absurd rfl hne
    | success => rfl
    | raised e => rfl
  · have hq1 : (query t₁ h₁ d₁).1 =
      .acquire :: ((queryBody t₁ h₁ d₁).1 ++ [.release]) := rfl
    have hq2 : (query t₂ h₂ d₂).1 =
      .acquire :: ((queryBody t₂ h₂ d₂).1 ++ [.release]) := rfl
    rw [hq1] at ha
    rw [hq2] at hb
    have := lock_exclusion m (queryBody t₁ h₁ d₁).1 (queryBody t₂ h₂ d₂).1 ha hb
      (queryBody_lockFree t₁ h₁ d₁) (queryBody_lockFree t₂ h₂ d₂) hv
    rw [hq1, hq2]
    exact this

/-- C3 witness: the back-to-back schedule `mW` of two `query` exchanges
on the echoing transport double is lock-valid and is recognized as one
exchange's events wholly preceding the other's. -/
theorem lock_discipline_witness :
    mW = ((query tEcho (chars ("R:")) []).1.map (fun e => (true, e))) ++
         ((query tEcho (chars ("R:")) []).1.map (fun e => (false, e))) ∨
    mW = ((query tEcho (chars ("R:")) []).1.map (fun e => (false, e))) ++
         ((query tEcho (chars ("R:")) []).1.map (fun e => (true, e))) :=
  lock_discipline.2.2.2 mW tEcho tEcho (chars ("R:")) (chars ("R:")) [] []
    (by decide) (by decide) (by decide)

end VAT590
